import Mathlib

/-!
Verification of the multi-site tenant-resolution core: the domain-keyed site
cache (src/lib/cache/siteCache.ts), the site service (getSiteByDomain and
getSiteByTenantId in the site-service module bundled with
src/scripts/init-navigation.js), and the tenant-resolution middleware
(src/middleware.ts).

Modelling conventions:
- The mutable in-memory cache object is passed explicitly: every operation
  takes the cache state and returns the (possibly updated) state.
- Wall-clock time (Date.now in the source) is an explicit integer parameter.
- The Firestore backend is a `Store`: a list of (document id, document data)
  pairs plus an availability flag; an unavailable store models the fetch
  throwing, which the source catches.
- JavaScript truthiness on strings (empty string is falsy) is modelled by
  explicit emptiness tests where the source relies on it.
-/

set_option autoImplicit false

namespace MultiSite

/-- Site configuration record (SiteConfig in src/contexts/SiteContext plus the
`alternativeDomains` field of SiteDocument in src/lib/firebase/schema.ts).
The opaque `config` blob is omitted: the resolution core never inspects it. -/
structure SiteConfig where
  tenantId : String
  domainName : String
  siteName : String
  themeId : String
  status : String
  alternativeDomains : List String := []
deriving Repr, DecidableEq

/-- A cache entry of src/lib/cache/siteCache.ts: the cached site plus the
insertion timestamp (milliseconds). -/
structure CacheItem where
  site : SiteConfig
  timestamp : Int
deriving Repr, DecidableEq

/-- The in-memory `siteCache` object, modelled as an association list with at
most one binding per domain key. -/
abbrev SiteCache := List (String × CacheItem)

/-- Lookup in a string-keyed association list (JavaScript object indexing). -/
def assocFind {β : Type} : List (String × β) → String → Option β
  | [], _ => none
  | (k, v) :: rest, d => if k = d then some v else assocFind rest d

/-- Keys of a cache state. -/
def cacheKeys (c : SiteCache) : List String := c.map Prod.fst

/-- JavaScript `delete siteCache[d]`. -/
def cacheErase : SiteCache → String → SiteCache
  | [], _ => []
  | (k, v) :: rest, d => if k = d then cacheErase rest d else (k, v) :: cacheErase rest d

/-- JavaScript `siteCache[d] = item`: overwrite the existing binding for `d`,
or add a new one. -/
def cacheInsert : SiteCache → String → CacheItem → SiteCache
  | [], d, it => [(d, it)]
  | (k, v) :: rest, d, it =>
    if k = d then (d, it) :: rest else (k, v) :: cacheInsert rest d it

/-- CACHE_EXPIRATION_MS in src/lib/cache/siteCache.ts: five minutes. -/
def CACHE_EXPIRATION_MS : Int := 5 * 60 * 1000

/-- getCachedSite of src/lib/cache/siteCache.ts. Returns the cached site (or
none) together with the cache state after the call: an entry older than the
TTL is deleted on read (lazy expiration). -/
def getCachedSite (cache : SiteCache) (domainName : String) (now : Int) :
    Option SiteConfig × SiteCache :=
  match assocFind cache domainName with
  | none => (none, cache)
  | some item =>
    if now - item.timestamp > CACHE_EXPIRATION_MS then
      (none, cacheErase cache domainName)
    else
      (some item.site, cache)

/-- cacheSite of src/lib/cache/siteCache.ts: insert or overwrite with the
current time as the timestamp. No capacity check appears in the source. -/
def cacheSite (cache : SiteCache) (domainName : String) (site : SiteConfig) (now : Int) :
    SiteCache :=
  cacheInsert cache domainName { site := site, timestamp := now }

/-- clearSiteCache of src/lib/cache/siteCache.ts. -/
def clearSiteCache (cache : SiteCache) (domainName : String) : SiteCache :=
  cacheErase cache domainName

/-- One document of the Firestore `sites` collection (SiteDocument in
src/lib/firebase/schema.ts, restricted to the fields the core reads). -/
structure SiteDoc where
  domainName : String
  siteName : String
  themeId : String
  status : String
  alternativeDomains : List String := []
deriving Repr, DecidableEq

/-- The Firestore backend: the `sites` collection as (document id, data)
pairs, plus a flag modelling reachability. When `available` is false every
query or document read throws; the site service catches the throw. -/
structure Store where
  available : Bool
  docs : List (String × SiteDoc)
deriving Repr, DecidableEq

/-- Spreading a document into a SiteConfig with `tenantId` overridden by the
document id, as both service functions do. -/
def docToSite (docId : String) (d : SiteDoc) : SiteConfig :=
  { tenantId := docId
    domainName := d.domainName
    siteName := d.siteName
    themeId := d.themeId
    status := d.status
    alternativeDomains := d.alternativeDomains }

/-- The Firestore query `query(sitesRef, where(domainName, ==, d))`: the
documents whose `domainName` field equals `d` exactly. Note the source
queries only the primary `domainName` field. -/
def queryByDomain (store : Store) (domainName : String) : List (String × SiteDoc) :=
  store.docs.filter (fun p => p.2.domainName == domainName)

/-- The mockSites table of src/lib/site/mockData.ts. -/
def mockSites : List (String × SiteConfig) :=
  [ ("localhost:3000",
     { tenantId := "default-tenant", domainName := "localhost:3000",
       siteName := "Default Development Site", themeId := "default-theme",
       status := "active" }),
    ("tenant1.example.com",
     { tenantId := "tenant1", domainName := "tenant1.example.com",
       siteName := "Tenant One", themeId := "blue-theme", status := "active" }),
    ("tenant2.example.com",
     { tenantId := "tenant2", domainName := "tenant2.example.com",
       siteName := "Tenant Two", themeId := "green-theme", status := "active" }),
    ("inactive.example.com",
     { tenantId := "inactive-tenant", domainName := "inactive.example.com",
       siteName := "Inactive Site", themeId := "default-theme",
       status := "inactive" }) ]

/-- Result of a getSiteByDomain call: the returned site, the cache state after
the call, and whether the backing data source (mock table or Firestore) was
consulted (false exactly on a cache hit). -/
structure ResolveResult where
  site : Option SiteConfig
  cache : SiteCache
  fetched : Bool
deriving Repr, DecidableEq

/-- getSiteByDomain of the site service (bundled with
src/scripts/init-navigation.js): check the cache; on a miss, in mock mode
look up the mock table with a fallback to the localhost:3000 entry, otherwise
query Firestore by exact `domainName`, returning null when the query is empty
and caching on success. A throw from Firestore (unavailable store) is caught
and becomes null. -/
def getSiteByDomain (useMockData : Bool) (mock : List (String × SiteConfig))
    (store : Store) (cache : SiteCache) (domainName : String) (now : Int) :
    ResolveResult :=
  match (getCachedSite cache domainName now).1 with
  | some site => { site := some site, cache := (getCachedSite cache domainName now).2, fetched := false }
  | none =>
    if useMockData then
      match (assocFind mock domainName).orElse (fun _ => assocFind mock "localhost:3000") with
      | some site =>
        { site := some site
          cache := cacheSite (getCachedSite cache domainName now).2 domainName site now
          fetched := true }
      | none =>
        { site := none, cache := (getCachedSite cache domainName now).2, fetched := true }
    else if store.available then
      match queryByDomain store domainName with
      | [] => { site := none, cache := (getCachedSite cache domainName now).2, fetched := true }
      | (docId, d) :: _ =>
        { site := some (docToSite docId d)
          cache := cacheSite (getCachedSite cache domainName now).2 domainName (docToSite docId d) now
          fetched := true }
    else
      { site := none, cache := (getCachedSite cache domainName now).2, fetched := true }

/-- getSiteByTenantId of the site service: in mock mode scan the mock table
values for a matching tenantId (no caching); otherwise read the document with
id `tenantId`, and on success cache it under its `domainName` key when that
field is a non-empty string (JavaScript truthiness). A throw (unavailable
store) is caught and becomes null. -/
def getSiteByTenantId (useMockData : Bool) (mock : List (String × SiteConfig))
    (store : Store) (cache : SiteCache) (tenantId : String) (now : Int) :
    Option SiteConfig × SiteCache :=
  if useMockData then
    ((mock.map Prod.snd).find? (fun s => s.tenantId == tenantId), cache)
  else if store.available then
    match assocFind store.docs tenantId with
    | none => (none, cache)
    | some d =>
      if (docToSite tenantId d).domainName = "" then
        (some (docToSite tenantId d), cache)
      else
        (some (docToSite tenantId d),
         cacheSite cache (docToSite tenantId d).domainName (docToSite tenantId d) now)
  else
    (none, cache)

/-- The parts of an inbound request read by the middleware: the request
headers, the request cookies (carried so that a purported bypass credential
can be expressed; the middleware never reads them), and the URL pathname. -/
structure Request where
  headers : List (String × String)
  cookies : List (String × String)
  pathname : String
deriving Repr, DecidableEq

/-- Process environment variables read by the middleware. -/
structure Env where
  nodeEnv : String
  mockDomain : Option String
deriving Repr, DecidableEq

/-- request.headers.get(name): the header value, or null when absent. -/
def headerGet (req : Request) (name : String) : Option String :=
  assocFind req.headers name

/-- JavaScript `a || b` where `a` is a nullable string: the empty string is
falsy, so it falls through to `b`. -/
def jsOrString (a : Option String) (b : String) : String :=
  match a with
  | some s => if s = "" then b else s
  | none => b

/-- The domain the middleware resolves (src/middleware.ts lines 9 to 16):
`headerMockDomain || envMockDomain || hostname`, with
`hostname = request.headers.get(host) || empty`. -/
def chosenDomain (env : Env) (req : Request) : String :=
  jsOrString (headerGet req "x-mock-domain")
    (jsOrString env.mockDomain (jsOrString (headerGet req "host") ""))

/-- The decision the middleware hands back to the request pipeline: proceed
(NextResponse.next) with the given response headers, or redirect to a path.
A redirect discards the headers set on the provisional response; the
response cookie mirroring x-tenant-id is not modelled. -/
inductive Outcome where
  | next (headers : List (String × String))
  | redirect (path : String)
deriving Repr, DecidableEq

/-- The disposition of a request once a site record is resolved
(src/middleware.ts lines 32 to 54): redirect to /maintenance for a site in
maintenance status unless the pathname already starts with /maintenance;
redirect to /site-inactive for an inactive site; otherwise proceed with the
x-tenant-id and x-site-status response headers. -/
def siteDisposition (req : Request) (site : SiteConfig) : Outcome :=
  if site.status == "maintenance" && !(req.pathname.startsWith "/maintenance") then
    Outcome.redirect "/maintenance"
  else if site.status == "inactive" then
    Outcome.redirect "/site-inactive"
  else
    Outcome.next [("x-tenant-id", site.tenantId), ("x-site-status", site.status)]

/-- The middleware of src/middleware.ts: pick the domain, check the cache,
fall back to getSiteByDomain, then dispatch on the resolved record. When no
site is found, production redirects to /site-not-found while every other
environment proceeds with x-tenant-id set to unknown. The catch branch of
the source (x-tenant-id set to error) is unreachable here because
getSiteByDomain catches its own errors and returns null. -/
def middleware (env : Env) (useMockData : Bool) (mock : List (String × SiteConfig))
    (store : Store) (cache : SiteCache) (req : Request) (now : Int) :
    Outcome × SiteCache :=
  match (getCachedSite cache (chosenDomain env req) now).1 with
  | some site => (siteDisposition req site, (getCachedSite cache (chosenDomain env req) now).2)
  | none =>
    match (getSiteByDomain useMockData mock store
        (getCachedSite cache (chosenDomain env req) now).2 (chosenDomain env req) now).site with
    | some site =>
      (siteDisposition req site,
       (getSiteByDomain useMockData mock store
         (getCachedSite cache (chosenDomain env req) now).2 (chosenDomain env req) now).cache)
    | none =>
      if env.nodeEnv = "production" then
        (Outcome.redirect "/site-not-found",
         (getSiteByDomain useMockData mock store
           (getCachedSite cache (chosenDomain env req) now).2 (chosenDomain env req) now).cache)
      else
        (Outcome.next [("x-tenant-id", "unknown")],
         (getSiteByDomain useMockData mock store
           (getCachedSite cache (chosenDomain env req) now).2 (chosenDomain env req) now).cache)

/-- Folding a sequence of cacheSite calls over an initial cache state. -/
def putAll : SiteCache → List (String × SiteConfig × Int) → SiteCache
  | c, [] => c
  | c, (k, s, t) :: rest => putAll (cacheSite c k s t) rest

/-- A family of pairwise distinct domain keys: n copies of the letter a. -/
def aKey (n : Nat) : String := String.mk (List.replicate n 'a')

/-- A concrete active site record used in witnesses. -/
def siteA : SiteConfig :=
  { tenantId := "t1", domainName := "a.example.com", siteName := "A",
    themeId := "default", status := "active" }

/-- A concrete store document for siteA. -/
def aDoc : SiteDoc :=
  { domainName := "a.example.com", siteName := "A", themeId := "default",
    status := "active" }

/-- A concrete store document for a site in maintenance status. -/
def maintenanceDoc : SiteDoc :=
  { domainName := "b.example.com", siteName := "B", themeId := "default",
    status := "maintenance" }

/-- A concrete store document whose alternativeDomains lists b.example.com
while its primary domainName is a.example.com. -/
def altOnlyDoc : SiteDoc :=
  { domainName := "a.example.com", siteName := "A", themeId := "default",
    status := "active", alternativeDomains := ["b.example.com"] }

theorem assocFind_erase_self (c : SiteCache) (d : String) :
    assocFind (cacheErase c d) d = none := by
  induction c with
  | nil => rfl
  | cons p rest ih =>
    obtain ⟨k, v⟩ := p
    by_cases h : k = d
    · simp [cacheErase, h, ih]
    · simp [cacheErase, assocFind, h, ih]

theorem getCachedSite_none_of_find_none (c : SiteCache) (d : String) (now : Int)
    (h : assocFind c d = none) : getCachedSite c d now = (none, c) := by
  simp [getCachedSite, h]

theorem getCachedSite_snd_cases (c : SiteCache) (d : String) (now : Int) :
    (getCachedSite c d now).2 = c ∨ (getCachedSite c d now).2 = cacheErase c d := by
  unfold getCachedSite
  cases hf : assocFind c d with
  | none => left; rfl
  | some it =>
    by_cases h : now - it.timestamp > CACHE_EXPIRATION_MS
    · right; simp [h]
    · left; simp [h]

theorem find_snd_of_getCachedSite_none (c : SiteCache) (d : String) (now : Int)
    (h : (getCachedSite c d now).1 = none) :
    assocFind ((getCachedSite c d now).2) d = none := by
  unfold getCachedSite at h ⊢
  cases hf : assocFind c d with
  | none => simp [hf]
  | some it =>
    rw [hf] at h
    by_cases hexp : now - it.timestamp > CACHE_EXPIRATION_MS
    · simp [hf, hexp, assocFind_erase_self]
    · simp [hexp] at h

theorem assocFind_insert_self (c : SiteCache) (k : String) (it : CacheItem) :
    assocFind (cacheInsert c k it) k = some it := by
  induction c with
  | nil => simp [cacheInsert, assocFind]
  | cons p rest ih =>
    obtain ⟨k0, v0⟩ := p
    by_cases h : k0 = k
    · simp [cacheInsert, h, assocFind]
    · simp [cacheInsert, h, assocFind, ih]

theorem assocFind_insert_ne (c : SiteCache) (k k' : String) (it : CacheItem)
    (h : k' ≠ k) : assocFind (cacheInsert c k it) k' = assocFind c k' := by
  induction c with
  | nil => simp [cacheInsert, assocFind, if_neg (Ne.symm h)]
  | cons p rest ih =>
    obtain ⟨k0, v0⟩ := p
    by_cases h0 : k0 = k
    · subst h0
      simp [cacheInsert, assocFind, if_neg (Ne.symm h)]
    · simp only [cacheInsert, if_neg h0, assocFind]
      by_cases h1 : k0 = k'
      · simp [h1]
      · simp [h1, ih]

theorem cacheInsert_append (c : SiteCache) (k : String) (it : CacheItem)
    (h : k ∉ cacheKeys c) : cacheInsert c k it = c ++ [(k, it)] := by
  induction c with
  | nil => rfl
  | cons p rest ih =>
    obtain ⟨k0, v0⟩ := p
    simp only [cacheKeys, List.map_cons, List.mem_cons] at h
    push_neg at h
    have h0 : ¬ k0 = k := fun e => h.1 e.symm
    simp only [cacheInsert, if_neg h0, List.cons_append, List.cons.injEq, true_and]
    exact ih h.2

theorem getSiteByDomain_none_eq (u : Bool) (mock : List (String × SiteConfig))
    (store : Store) (cache : SiteCache) (d : String) (now : Int)
    (h : (getSiteByDomain u mock store cache d now).site = none) :
    getSiteByDomain u mock store cache d now =
      { site := none, cache := (getCachedSite cache d now).2, fetched := true } := by
  unfold getSiteByDomain at h ⊢
  cases hg : (getCachedSite cache d now).1 with
  | some site => simp_all
  | none =>
    dsimp only at h ⊢
    by_cases hu : u = true
    · rw [if_pos hu] at h ⊢
      cases ho : (assocFind mock d).orElse (fun x => assocFind mock "localhost:3000") with
      | some site => simp_all
      | none => rfl
    · rw [if_neg hu] at h ⊢
      by_cases hav : store.available = true
      · rw [if_pos hav] at h ⊢
        cases hq : queryByDomain store d with
        | nil => rfl
        | cons p rest =>
          obtain ⟨docId, dd⟩ := p
          simp_all
      · rw [if_neg hav]

theorem getSiteByDomain_fetched_of_miss (u : Bool) (mock : List (String × SiteConfig))
    (store : Store) (cache : SiteCache) (d : String) (now : Int)
    (h : assocFind cache d = none) :
    (getSiteByDomain u mock store cache d now).fetched = true := by
  have hg : getCachedSite cache d now = (none, cache) :=
    getCachedSite_none_of_find_none cache d now h
  unfold getSiteByDomain
  rw [hg]
  dsimp only
  by_cases hu : u = true
  · rw [if_pos hu]
    cases ho : (assocFind mock d).orElse (fun x => assocFind mock "localhost:3000") with
    | some site => rfl
    | none => rfl
  · rw [if_neg hu]
    by_cases hav : store.available = true
    · rw [if_pos hav]
      cases hq : queryByDomain store d with
      | nil => rfl
      | cons p rest =>
        obtain ⟨docId, dd⟩ := p
        rfl
    · rw [if_neg hav]

theorem getCachedSite_fst_of_none (u : Bool) (mock : List (String × SiteConfig))
    (store : Store) (cache : SiteCache) (d : String) (now : Int)
    (h : (getSiteByDomain u mock store cache d now).site = none) :
    (getCachedSite cache d now).1 = none := by
  unfold getSiteByDomain at h
  cases hg : (getCachedSite cache d now).1 with
  | none => rfl
  | some site => simp_all

/-- C8: getCachedSite returns the cached record exactly when an entry exists
and now minus insertedAt is at most the TTL; an entry older than the TTL is
removed and reported absent; a missing key is reported absent with no side
effect on the cache. -/
theorem C8_get_ttl_spec (cache : SiteCache) (d : String) (now : Int) :
    (assocFind cache d = none → getCachedSite cache d now = (none, cache)) ∧
    (∀ item, assocFind cache d = some item →
      (now - item.timestamp > CACHE_EXPIRATION_MS →
        getCachedSite cache d now = (none, cacheErase cache d) ∧
        assocFind (cacheErase cache d) d = none) ∧
      (now - item.timestamp ≤ CACHE_EXPIRATION_MS →
        getCachedSite cache d now = (some item.site, cache))) := by
  refine ⟨fun h => getCachedSite_none_of_find_none cache d now h,
    fun item hf => ⟨fun hexp => ⟨?_, assocFind_erase_self cache d⟩, fun hok => ?_⟩⟩
  · simp [getCachedSite, hf, hexp]
  · simp only [getCachedSite, hf]
    rw [if_neg (not_lt.mpr hok)]

/-- C8 witness: the three cases of C8_get_ttl_spec at concrete inputs, with a
single entry inserted at time 0 and the five minute TTL. -/
theorem C8_get_ttl_spec_witness :
    getCachedSite [("a.example.com", { site := siteA, timestamp := 0 })] "a.example.com" 1000 =
      (some siteA, [("a.example.com", { site := siteA, timestamp := 0 })]) ∧
    getCachedSite [("a.example.com", { site := siteA, timestamp := 0 })] "a.example.com" 400000 =
      (none, cacheErase [("a.example.com", { site := siteA, timestamp := 0 })] "a.example.com") ∧
    getCachedSite [] "b.example.com" 0 = (none, []) := by
  refine ⟨?_, ?_, ?_⟩
  · exact ((C8_get_ttl_spec [("a.example.com", { site := siteA, timestamp := 0 })]
      "a.example.com" 1000).2 { site := siteA, timestamp := 0 } rfl).2 (by decide)
  · exact (((C8_get_ttl_spec [("a.example.com", { site := siteA, timestamp := 0 })]
      "a.example.com" 400000).2 { site := siteA, timestamp := 0 } rfl).1 (by decide)).1
  · exact (C8_get_ttl_spec [] "b.example.com" 0).1 rfl

/-- C3: a resolve that returns NotFound leaves the cache with no entry for
the domain (the state is unchanged apart from the lazy deletion of an
already expired entry of that same domain) and never creates one, so an
immediately following resolve of the same domain consults the backing data
source again instead of hitting the cache. -/
theorem C3_notFound_does_not_populate (u : Bool) (mock : List (String × SiteConfig))
    (store : Store) (cache : SiteCache) (d : String) (now now2 : Int)
    (h : (getSiteByDomain u mock store cache d now).site = none) :
    ((getSiteByDomain u mock store cache d now).cache = cache ∨
      (getSiteByDomain u mock store cache d now).cache = cacheErase cache d) ∧
    assocFind (getSiteByDomain u mock store cache d now).cache d = none ∧
    (getSiteByDomain u mock store (getSiteByDomain u mock store cache d now).cache d
      now2).fetched = true := by
  have hfst := getCachedSite_fst_of_none u mock store cache d now h
  have he := getSiteByDomain_none_eq u mock store cache d now h
  refine ⟨?_, ?_, ?_⟩
  · rw [he]
    exact getCachedSite_snd_cases cache d now
  · rw [he]
    exact find_snd_of_getCachedSite_none cache d now hfst
  · refine getSiteByDomain_fetched_of_miss u mock store _ d now2 ?_
    rw [he]
    exact find_snd_of_getCachedSite_none cache d now hfst

/-- C3 witness: resolving an unconfigured domain against a reachable, empty
store leaves the empty cache empty and a second resolve fetches again. -/
theorem C3_notFound_does_not_populate_witness :
    ((getSiteByDomain false [] { available := true, docs := [] } []
        "unknown.example.com" 0).cache = [] ∨
      (getSiteByDomain false [] { available := true, docs := [] } []
        "unknown.example.com" 0).cache = cacheErase [] "unknown.example.com") ∧
    assocFind (getSiteByDomain false [] { available := true, docs := [] } []
      "unknown.example.com" 0).cache "unknown.example.com" = none ∧
    (getSiteByDomain false [] { available := true, docs := [] }
      (getSiteByDomain false [] { available := true, docs := [] } []
        "unknown.example.com" 0).cache "unknown.example.com" 1).fetched = true :=
  C3_notFound_does_not_populate false [] { available := true, docs := [] } []
    "unknown.example.com" 0 1 rfl

/-- C10: the id-lookup path (non-mock) populates the domain-keyed cache: when
the store is reachable and holds a document for the tenant id whose
domainName field is non-empty, getSiteByTenantId returns that record, stores
it under its domainName with the current timestamp, and a cache read within
the TTL returns the same record. -/
theorem C10_idLookup_populates_cache (mock : List (String × SiteConfig))
    (store : Store) (cache : SiteCache) (tid : String) (now now2 : Int) (d : SiteDoc)
    (hav : store.available = true)
    (hdoc : assocFind store.docs tid = some d)
    (hdn : ¬ (docToSite tid d).domainName = "")
    (hts : now2 - now ≤ CACHE_EXPIRATION_MS) :
    (getSiteByTenantId false mock store cache tid now).1 = some (docToSite tid d) ∧
    assocFind (getSiteByTenantId false mock store cache tid now).2
      (docToSite tid d).domainName = some { site := docToSite tid d, timestamp := now } ∧
    (getCachedSite (getSiteByTenantId false mock store cache tid now).2
      (docToSite tid d).domainName now2).1 = some (docToSite tid d) := by
  have hres : getSiteByTenantId false mock store cache tid now =
      (some (docToSite tid d),
       cacheSite cache (docToSite tid d).domainName (docToSite tid d) now) := by
    unfold getSiteByTenantId
    rw [if_neg Bool.false_ne_true, if_pos hav, hdoc]
    dsimp only
    rw [if_neg hdn]
  refine ⟨?_, ?_, ?_⟩
  · rw [hres]
  · rw [hres]
    exact assocFind_insert_self cache (docToSite tid d).domainName _
  · rw [hres]
    show (getCachedSite (cacheInsert cache (docToSite tid d).domainName _)
      (docToSite tid d).domainName now2).1 = _
    unfold getCachedSite
    rw [assocFind_insert_self]
    dsimp only
    rw [if_neg (not_lt.mpr hts)]

/-- C10 witness: a concrete id lookup against a one-document store caches the
record under a.example.com and a read at time 1000 returns it. -/
theorem C10_idLookup_populates_cache_witness :
    (getSiteByTenantId false [] { available := true, docs := [("t1", aDoc)] } [] "t1" 0).1 =
      some (docToSite "t1" aDoc) ∧
    assocFind (getSiteByTenantId false [] { available := true, docs := [("t1", aDoc)] } []
      "t1" 0).2 (docToSite "t1" aDoc).domainName =
      some { site := docToSite "t1" aDoc, timestamp := 0 } ∧
    (getCachedSite (getSiteByTenantId false [] { available := true, docs := [("t1", aDoc)] } []
      "t1" 0).2 (docToSite "t1" aDoc).domainName 1000).1 = some (docToSite "t1" aDoc) :=
  C10_idLookup_populates_cache [] { available := true, docs := [("t1", aDoc)] } [] "t1" 0 1000
    aDoc rfl rfl (by decide) (by decide)

/-- C1 counterexample: with the store unreachable, resolving an uncached
domain in production yields exactly the same middleware outcome and state as
resolving it against a reachable store holding no record: the redirect to
/site-not-found. The transient failure is not distinguishable from the
not-configured case at the resolver boundary. -/
theorem C1_counterexample :
    middleware { nodeEnv := "production", mockDomain := none } false []
        { available := false, docs := [] } []
        { headers := [("host", "c.example.com")], cookies := [], pathname := "/" } 0 =
      middleware { nodeEnv := "production", mockDomain := none } false []
        { available := true, docs := [] } []
        { headers := [("host", "c.example.com")], cookies := [], pathname := "/" } 0 ∧
    (middleware { nodeEnv := "production", mockDomain := none } false []
        { available := false, docs := [] } []
        { headers := [("host", "c.example.com")], cookies := [], pathname := "/" } 0).1 =
      Outcome.redirect "/site-not-found" :=
  ⟨rfl, rfl⟩

/-- C1 amended: a throwing store fetch is caught inside getSiteByDomain and
becomes null, the same result as a reachable store with no matching record:
for every cache state and domain the two runs are equal in all observable
components (returned site, cache state, fetch flag), so the middleware treats
store unavailability exactly like an unconfigured domain. -/
theorem C1_amended_unreachable_eq_empty (mock : List (String × SiteConfig))
    (store : Store) (cache : SiteCache) (d : String) (now : Int)
    (h : store.available = false) :
    getSiteByDomain false mock store cache d now =
      getSiteByDomain false mock { available := true, docs := [] } cache d now := by
  unfold getSiteByDomain
  cases hg : (getCachedSite cache d now).1 with
  | some site => rfl
  | none =>
    dsimp only
    simp [h, queryByDomain]

/-- C1 amended witness: the unreachable store instance used above, compared
with the empty reachable store at a concrete domain. -/
theorem C1_amended_unreachable_eq_empty_witness :
    ({ available := false, docs := [] } : Store).available = false ∧
    getSiteByDomain false [] { available := false, docs := [] } [] "c.example.com" 0 =
      getSiteByDomain false [] { available := true, docs := [] } [] "c.example.com" 0 :=
  ⟨rfl, C1_amended_unreachable_eq_empty [] { available := false, docs := [] } []
    "c.example.com" 0 rfl⟩

/-- C2 counterexample: for the same unconfigured domain the middleware
disposition depends on NODE_ENV: development proceeds with x-tenant-id set
to unknown instead of rejecting, while production redirects to
/site-not-found. -/
theorem C2_counterexample :
    (middleware { nodeEnv := "development", mockDomain := none } false []
        { available := true, docs := [] } []
        { headers := [("host", "unknown.example.com")], cookies := [], pathname := "/" } 0).1 =
      Outcome.next [("x-tenant-id", "unknown")] ∧
    (middleware { nodeEnv := "production", mockDomain := none } false []
        { available := true, docs := [] } []
        { headers := [("host", "unknown.example.com")], cookies := [], pathname := "/" } 0).1 =
      Outcome.redirect "/site-not-found" :=
  ⟨rfl, rfl⟩

/-- C2 amended: when neither the cache nor the data source yields a record,
the disposition is environment-dependent: production rejects with the
site-not-found redirect while every other NODE_ENV proceeds with the
x-tenant-id response header set to unknown. -/
theorem C2_amended_env_dependent (env : Env) (u : Bool) (mock : List (String × SiteConfig))
    (store : Store) (cache : SiteCache) (req : Request) (now : Int)
    (hmiss : (getCachedSite cache (chosenDomain env req) now).1 = none)
    (h : (getSiteByDomain u mock store
      (getCachedSite cache (chosenDomain env req) now).2 (chosenDomain env req) now).site
      = none) :
    (middleware env u mock store cache req now).1 =
      (if env.nodeEnv = "production" then Outcome.redirect "/site-not-found"
       else Outcome.next [("x-tenant-id", "unknown")]) := by
  unfold middleware
  rw [hmiss]
  dsimp only
  rw [h]
  dsimp only
  by_cases hp : env.nodeEnv = "production"
  · rw [if_pos hp, if_pos hp]
  · rw [if_neg hp, if_neg hp]

/-- C2 amended witness: the development branch at a concrete unconfigured
domain proceeds instead of rejecting. -/
theorem C2_amended_env_dependent_witness :
    (middleware { nodeEnv := "development", mockDomain := none } false []
        { available := true, docs := [] } []
        { headers := [("host", "unknown.example.com")], cookies := [], pathname := "/" } 0).1 =
      (if ("development" : String) = "production" then Outcome.redirect "/site-not-found"
       else Outcome.next [("x-tenant-id", "unknown")]) :=
  C2_amended_env_dependent { nodeEnv := "development", mockDomain := none } false []
    { available := true, docs := [] } []
    { headers := [("host", "unknown.example.com")], cookies := [], pathname := "/" } 0 rfl rfl

theorem cacheKeys_append_single (c : SiteCache) (k : String) (it : CacheItem) :
    cacheKeys (c ++ [(k, it)]) = cacheKeys c ++ [k] := by
  simp [cacheKeys]

theorem aKey_injective : Function.Injective aKey := by
  intro i j h
  have hlen := congrArg (fun s => s.data.length) h
  simpa [aKey] using hlen

theorem putAll_length (l : List (String × SiteConfig × Int)) :
    ∀ c : SiteCache, (l.map (fun p => p.1)).Nodup →
      (∀ k ∈ l.map (fun p => p.1), k ∉ cacheKeys c) →
      (putAll c l).length = c.length + l.length := by
  induction l with
  | nil =>
    intro c _ _
    simp [putAll]
  | cons p rest ih =>
    intro c hnd hfresh
    obtain ⟨k, s, t⟩ := p
    have hk : k ∉ cacheKeys c := hfresh k (by simp)
    have happ : cacheSite c k s t = c ++ [(k, { site := s, timestamp := t })] :=
      cacheInsert_append c k _ hk
    simp only [List.map_cons] at hnd
    have hnd0 := List.nodup_cons.mp hnd
    have hfresh2 : ∀ k2 ∈ rest.map (fun p => p.1),
        k2 ∉ cacheKeys (c ++ [(k, { site := s, timestamp := t })]) := by
      intro k2 hk2
      rw [cacheKeys_append_single]
      simp only [List.mem_append, List.mem_singleton]
      rintro (hin | hEq)
      · exact hfresh k2 (by simp [hk2]) hin
      · exact hnd0.1 (hEq ▸ hk2)
    have hrec := ih (c ++ [(k, { site := s, timestamp := t })]) hnd0.2 hfresh2
    simp only [putAll, happ, hrec]
    simp
    omega

/-- C4 counterexample: the cache store has no capacity bound: for every
purported capacity there is a sequence of put operations (inserting that
many plus one pairwise distinct keys into the empty cache) after which the
entry count exceeds it, so no bounded-capacity eviction policy exists. -/
theorem C4_counterexample :
    ¬ ∃ cap : Nat, ∀ ops : List (String × SiteConfig × Int),
      (putAll [] ops).length ≤ cap := by
  rintro ⟨cap, hcap⟩
  have hnodup : (((List.range (cap + 1)).map
      (fun i => (aKey i, siteA, (0 : Int)))).map (fun p => p.1)).Nodup := by
    rw [List.map_map]
    exact List.Nodup.map aKey_injective (List.nodup_range _)
  have hfresh : ∀ k ∈ ((List.range (cap + 1)).map
      (fun i => (aKey i, siteA, (0 : Int)))).map (fun p => p.1),
      k ∉ cacheKeys ([] : SiteCache) := by
    intro k _
    simp [cacheKeys]
  have hlen := putAll_length ((List.range (cap + 1)).map
    (fun i => (aKey i, siteA, (0 : Int)))) [] hnodup hfresh
  have hle := hcap ((List.range (cap + 1)).map (fun i => (aKey i, siteA, (0 : Int))))
  simp at hlen
  omega

/-- C4 amended: the cache store is unbounded: cacheSite performs no capacity
check and never evicts; a put of an absent key appends the new entry, keeps
every existing entry, and increases the entry count by exactly one. -/
theorem C4_amended_unbounded_put (c : SiteCache) (k : String) (s : SiteConfig) (t : Int)
    (h : k ∉ cacheKeys c) :
    cacheSite c k s t = c ++ [(k, { site := s, timestamp := t })] ∧
    (cacheSite c k s t).length = c.length + 1 := by
  have happ := cacheInsert_append c k { site := s, timestamp := t } h
  refine ⟨happ, ?_⟩
  show (cacheInsert c k { site := s, timestamp := t }).length = c.length + 1
  rw [happ]
  simp

/-- C4 amended witness: putting b.example.com into a one-entry cache keeps
the existing entry and grows the cache to two entries. -/
theorem C4_amended_unbounded_put_witness :
    ("b.example.com" ∉ cacheKeys [("a.example.com", { site := siteA, timestamp := 0 })]) ∧
    cacheSite [("a.example.com", { site := siteA, timestamp := 0 })] "b.example.com" siteA 5 =
      [("a.example.com", { site := siteA, timestamp := 0 }),
       ("b.example.com", { site := siteA, timestamp := 5 })] ∧
    (cacheSite [("a.example.com", { site := siteA, timestamp := 0 })]
      "b.example.com" siteA 5).length = 2 := by
  have h : "b.example.com" ∉ cacheKeys [("a.example.com", { site := siteA, timestamp := 0 })] := by
    decide
  have hmain := C4_amended_unbounded_put
    [("a.example.com", { site := siteA, timestamp := 0 })] "b.example.com" siteA 5 h
  exact ⟨h, hmain.1, hmain.2⟩

/-- C5 counterexample: resolution is not case-insensitive: in mock mode the
upper-cased domain misses the mock table (falling back to the localhost
entry, a different tenant) while the lower-cased domain resolves to tenant1,
and a cache entry stored under the lower-case key is invisible to the
upper-case key. -/
theorem C5_counterexample :
    (getSiteByDomain true mockSites { available := true, docs := [] } []
        "TENANT1.EXAMPLE.COM" 0).site ≠
      (getSiteByDomain true mockSites { available := true, docs := [] } []
        "tenant1.example.com" 0).site ∧
    (getCachedSite (cacheSite [] "tenant1.example.com" siteA 0)
      "TENANT1.EXAMPLE.COM" 0).1 = none ∧
    (getCachedSite (cacheSite [] "tenant1.example.com" siteA 0)
      "tenant1.example.com" 0).1 = some siteA :=
  ⟨by decide, rfl, rfl⟩

/-- C5 amended: resolution is case-sensitive: the domain string is used
verbatim with no lower-casing, so two distinct spellings (in particular two
casings of one domain) address independent cache entries, and the store
query compares the domainName field for exact string equality. -/
theorem C5_amended_case_sensitive (c : SiteCache) (d d' : String) (s : SiteConfig)
    (now : Int) (store : Store)
    (hne : d' ≠ d) (hfind : assocFind c d' = none) :
    assocFind (cacheSite c d s now) d' = none ∧
    ∀ p ∈ queryByDomain store d, p.2.domainName = d := by
  constructor
  · show assocFind (cacheInsert c d { site := s, timestamp := now }) d' = none
    rw [assocFind_insert_ne c d d' _ hne, hfind]
  · intro p hp
    exact eq_of_beq (List.mem_filter.mp hp).2

/-- C5 amended witness: the lower-case entry is invisible to the upper-case
key, and the one-document store matches only the exact domain string. -/
theorem C5_amended_case_sensitive_witness :
    assocFind (cacheSite [] "a.example.com" siteA 0) "A.EXAMPLE.COM" = none ∧
    ∀ p ∈ queryByDomain { available := true, docs := [("t1", aDoc)] } "a.example.com",
      p.2.domainName = "a.example.com" :=
  C5_amended_case_sensitive [] "a.example.com" "A.EXAMPLE.COM" siteA 0
    { available := true, docs := [("t1", aDoc)] } (by decide) rfl

/-- C6 counterexample: a request to a maintenance-status site that carries a
purported bypass credential (an extra request header and a cookie) and does
not target the maintenance path is still redirected to /maintenance: the
middleware consults no bypass credential at all. -/
theorem C6_counterexample :
    (middleware { nodeEnv := "production", mockDomain := none } false []
        { available := true, docs := [("tb", maintenanceDoc)] } []
        { headers := [("host", "b.example.com"), ("x-maintenance-bypass", "true")],
          cookies := [("maintenance-bypass", "true")], pathname := "/" } 0).1 =
      Outcome.redirect "/maintenance" := by
  decide

/-- C6 amended: for a resolved record in maintenance status the disposition
depends only on the pathname: the request proceeds with the x-tenant-id and
x-site-status response headers when the pathname already starts with
/maintenance, and is redirected to /maintenance otherwise; no bypass
credential exists. -/
theorem C6_amended_maintenance_redirect (req : Request) (site : SiteConfig)
    (h : site.status = "maintenance") :
    siteDisposition req site =
      (if req.pathname.startsWith "/maintenance" then
        Outcome.next [("x-tenant-id", site.tenantId), ("x-site-status", site.status)]
      else Outcome.redirect "/maintenance") := by
  cases hp : req.pathname.startsWith "/maintenance" <;>
    simp [siteDisposition, h, hp]

/-- C6 amended witness: a maintenance site at the root path is redirected. -/
theorem C6_amended_maintenance_redirect_witness :
    (docToSite "tb" maintenanceDoc).status = "maintenance" ∧
    siteDisposition { headers := [], cookies := [], pathname := "/" }
        (docToSite "tb" maintenanceDoc) =
      (if ("/" : String).startsWith "/maintenance" then
        Outcome.next [("x-tenant-id", (docToSite "tb" maintenanceDoc).tenantId),
                      ("x-site-status", (docToSite "tb" maintenanceDoc).status)]
      else Outcome.redirect "/maintenance") :=
  ⟨rfl, C6_amended_maintenance_redirect { headers := [], cookies := [], pathname := "/" }
    (docToSite "tb" maintenanceDoc) rfl⟩

/-- C7 counterexample: a domain listed only in a tenant document's
alternativeDomains field does not resolve: the store query matches only the
primary domainName, so the fetch returns NotFound even though b.example.com
is listed as an alternative domain of the only document. -/
theorem C7_counterexample :
    ("b.example.com" ∈ altOnlyDoc.alternativeDomains) ∧
    (getSiteByDomain false [] { available := true, docs := [("t1", altOnlyDoc)] } []
      "b.example.com" 0).site = none :=
  ⟨by decide, rfl⟩

/-- C7 amended: on a cache miss against a reachable store, fetch-by-domain
returns the first document whose primary domainName equals the domain and
NotFound exactly when no document does; the alternativeDomains field is
never consulted. -/
theorem C7_amended_primary_domain_only (mock : List (String × SiteConfig)) (store : Store)
    (cache : SiteCache) (d : String) (now : Int)
    (hav : store.available = true) (hmiss : assocFind cache d = none) :
    (getSiteByDomain false mock store cache d now).site =
      (queryByDomain store d).head?.map (fun p => docToSite p.1 p.2) ∧
    (∀ p ∈ queryByDomain store d, p.2.domainName = d) ∧
    (queryByDomain store d = [] ↔ ∀ p ∈ store.docs, p.2.domainName ≠ d) := by
  refine ⟨?_, ?_, ?_⟩
  · have hg : getCachedSite cache d now = (none, cache) :=
      getCachedSite_none_of_find_none cache d now hmiss
    unfold getSiteByDomain
    rw [hg]
    dsimp only
    rw [if_neg Bool.false_ne_true, if_pos hav]
    cases hq : queryByDomain store d with
    | nil => rfl
    | cons p rest =>
      obtain ⟨docId, dd⟩ := p
      rfl
  · intro p hp
    exact eq_of_beq (List.mem_filter.mp hp).2
  · simp [queryByDomain, List.filter_eq_nil_iff]

/-- C7 amended witness: the one-document store resolves its exact primary
domain. -/
theorem C7_amended_primary_domain_only_witness :
    (getSiteByDomain false [] { available := true, docs := [("t1", aDoc)] } []
        "a.example.com" 0).site =
      (queryByDomain { available := true, docs := [("t1", aDoc)] } "a.example.com").head?.map
        (fun p => docToSite p.1 p.2) ∧
    (∀ p ∈ queryByDomain { available := true, docs := [("t1", aDoc)] } "a.example.com",
      p.2.domainName = "a.example.com") ∧
    (queryByDomain { available := true, docs := [("t1", aDoc)] } "a.example.com" = [] ↔
      ∀ p ∈ ({ available := true, docs := [("t1", aDoc)] } : Store).docs,
        p.2.domainName ≠ "a.example.com") :=
  C7_amended_primary_domain_only [] { available := true, docs := [("t1", aDoc)] } []
    "a.example.com" 0 rfl rfl

/-- C9 counterexample: a request carrying the x-mock-domain header is not
always resolved by that header value: JavaScript truthiness treats an empty
header value as unset, so here the environment mock domain is used instead. -/
theorem C9_counterexample :
    headerGet { headers := [("host", "real.example.com"), ("x-mock-domain", "")],
                cookies := [], pathname := "/" } "x-mock-domain" = some "" ∧
    chosenDomain { nodeEnv := "production", mockDomain := some "mock.example.com" }
      { headers := [("host", "real.example.com"), ("x-mock-domain", "")],
        cookies := [], pathname := "/" } = "mock.example.com" ∧
    ("mock.example.com" : String) ≠ "" :=
  ⟨rfl, rfl, by decide⟩

/-- C9 amended: precedence among the domain sources uses JavaScript
truthiness, the empty string counting as unset: a non-empty x-mock-domain
request header wins; otherwise a non-empty NEXT_PUBLIC_MOCK_DOMAIN
environment variable wins; otherwise the Host header (taken as empty when
absent) is used. -/
theorem C9_amended_precedence (env : Env) (req : Request) :
    (∀ s, headerGet req "x-mock-domain" = some s → s ≠ "" → chosenDomain env req = s) ∧
    ((headerGet req "x-mock-domain" = none ∨ headerGet req "x-mock-domain" = some "") →
      (∀ s, env.mockDomain = some s → s ≠ "" → chosenDomain env req = s) ∧
      ((env.mockDomain = none ∨ env.mockDomain = some "") →
        chosenDomain env req = jsOrString (headerGet req "host") "")) := by
  refine ⟨?_, fun hh => ⟨?_, ?_⟩⟩
  · intro s hs hne
    unfold chosenDomain
    rw [hs]
    simp [jsOrString, hne]
  · intro s hs hne
    unfold chosenDomain
    rcases hh with h1 | h1 <;> rw [h1, hs] <;> simp [jsOrString, hne]
  · intro he
    unfold chosenDomain
    rcases hh with h1 | h1 <;> rcases he with h2 | h2 <;> rw [h1, h2] <;> simp [jsOrString]

/-- C9 amended witness: a non-empty x-mock-domain header determines the
resolved domain. -/
theorem C9_amended_precedence_witness :
    headerGet { headers := [("x-mock-domain", "mock.example.com"), ("host", "real.example.com")],
                cookies := [], pathname := "/" } "x-mock-domain" = some "mock.example.com" ∧
    ("mock.example.com" : String) ≠ "" ∧
    chosenDomain { nodeEnv := "production", mockDomain := none }
      { headers := [("x-mock-domain", "mock.example.com"), ("host", "real.example.com")],
        cookies := [], pathname := "/" } = "mock.example.com" :=
  ⟨rfl, by decide,
    (C9_amended_precedence { nodeEnv := "production", mockDomain := none }
      { headers := [("x-mock-domain", "mock.example.com"), ("host", "real.example.com")],
        cookies := [], pathname := "/" }).1 "mock.example.com" rfl (by decide)⟩

end MultiSite
